import Mathlib

/-!
Verification of the CurrencyTradeBot repository against its specification.

This file shallowly embeds the Python source (models/db.py, models/parsers.py,
models/logger.py, utils/dt.py, utils/decorators.py, main.py) into Lean.
Python floats are modelled as rationals, machine integers as `Int`/`Nat`,
fallible code as `Except`, and the SQLite storage as explicit state passing.
HTTP/HTML fetching is abstracted as an environment oracle that yields the
parsed numeric value (or a parsing failure), since the network is external
to the program.
-/

namespace CTB

/-- Python exception kinds relevant to the embedded code. -/
inductive PyErr
  | valueError
  | keyError
  | assertionError
  | typeError
  | operationalError
  | integrityError
deriving DecidableEq, Repr

end CTB

deriving instance DecidableEq for Except

namespace CTB

/- ----------------------------------------------------------------
   utils helpers (prettify_float lives in utils/__init__.py, which is
   not among the available source files)
---------------------------------------------------------------- -/

/-- Modelled from the spec: `utils.prettify_float` (its source file,
`utils/__init__.py`, is not available) "rounds/normalizes a floating-point
value to a fixed, human-presentable precision".  We model the fixed
precision as rounding to five decimal places. -/
def prettify_float (x : ℚ) : ℚ :=
  ((round (x * 100000) : ℤ) : ℚ) / 100000

/- ----------------------------------------------------------------
   models/parsers.py : CurrencyParser.calculate_difference / check_delta
---------------------------------------------------------------- -/

/-- Result dictionary of `CurrencyParser.calculate_difference`. -/
structure DiffResult where
  old : ℚ
  new : ℚ
  percentage_difference : ℚ
  difference : ℚ
deriving DecidableEq, Repr

/-- `CurrencyParser.calculate_difference(old, new)` from models/parsers.py:
percentage difference is `-prettify_float((old - new) / max(old, new))` and
the absolute difference is `prettify_float(-(old - new))`. -/
def calculate_difference (old new : ℚ) : DiffResult :=
  { old := old
    new := new
    percentage_difference := -prettify_float ((old - new) / max old new)
    difference := prettify_float (-(old - new)) }

/-- Result dictionary of `CurrencyParser.check_delta`; the three numeric
fields are `Option` because the method deletes them when the percentage
difference is below the threshold. -/
structure DeltaResult where
  old : ℚ
  newVal : Option ℚ
  percentage_difference : Option ℚ
  difference : Option ℚ
  currency_from : String
  currency_to : String
deriving DecidableEq, Repr

/-- Python `x or default` for an optional float argument: a supplied value
equal to `0` is falsy and falls back to the default, as does `None`. -/
def pyOrQ (x : Option ℚ) (dflt : ℚ) : ℚ :=
  match x with
  | some v => if v = 0 then dflt else v
  | none => dflt

/-- `CurrencyParser.check_delta(old=None, new=None, percent_delta=0.01)`.
`selfValue` models `self.value`, `fetchedUSD` models
`self.get_rate().get('USD')` (the live fetch used when `new` is omitted);
the claim exercises the explicitly-supplied case.  The fields `new`,
`percentage_difference` and `difference` are deleted when the absolute
percentage difference is below `percent_delta`. -/
def check_delta (iso : String) (selfValue fetchedUSD : ℚ)
    (old new : Option ℚ) (percent_delta : ℚ) : DeltaResult :=
  let o := pyOrQ old selfValue
  let n := pyOrQ new fetchedUSD
  let res := calculate_difference o n
  if |res.percentage_difference| < percent_delta then
    { old := res.old, newVal := none, percentage_difference := none
      difference := none, currency_from := iso, currency_to := "USD" }
  else
    { old := res.old, newVal := some res.new
      percentage_difference := some res.percentage_difference
      difference := some res.difference
      currency_from := iso, currency_to := "USD" }

/- ----------------------------------------------------------------
   models/parsers.py : CurrencyExchanger
---------------------------------------------------------------- -/

/-- Python `str.upper()` restricted to ASCII (iso codes are ASCII). -/
def pyUpperChar (c : Char) : Char :=
  if 'a' ≤ c ∧ c ≤ 'z' then Char.ofNat (c.toNat - 32) else c

/-- Python `str.upper()` on an iso-code string. -/
def pyUpper (s : String) : String :=
  String.mk (s.data.map pyUpperChar)

/-- The two error kinds the aggregator distinguishes
(`exceptions.CurrencyDoesNotExistError` and `exceptions.ParsingError`). -/
inductive ExchangerError
  | currencyNotFound
  | parsingError
deriving DecidableEq, Repr

/-- The iso keys of `CurrencyExchanger.parsers`: the `RTSParser`, the
`BitcoinParser` and one `InvestingParser` per key of
`InvestingParser.AVAILABLE_PRODUCTS`. -/
def exchangerIsos : List String :=
  ["RTS", "BTC", "Gold", "Silver", "Palladium", "Copper", "Platinum",
    "BRENT", "CRUDE", "GAS", "GAS-OIL"]

/-- Oracle for the HTTP/HTML layer of the parsers.  `dedicatedRate iso` is
the USD number `CurrencyParser.get_rate` extracts for the dedicated parser
of `iso` (`none` models a `ParsingError`: empty soup or malformed number).
`fiatPageOk iso` is the result of
`FreecurrencyratesParser.check_currency_exists` (`response.ok`, with any
exception swallowed to `False`).  `fiatRate a b` is the number parsed from
the rate element of the `a`-to-`b` calculator page (`none` models the
missing-element `ParsingError`). -/
structure RateEnv where
  dedicatedRate : String → Option ℚ
  fiatPageOk : String → Bool
  fiatRate : String → String → Option ℚ

/-- `CurrencyParser.get_rate` for a dedicated parser: on success the dict
`{iso: 1, 'USD': number}`, else `ParsingError`. -/
def currencyParser_get_rate (env : RateEnv) (iso : String) :
    Except ExchangerError (List (String × ℚ)) :=
  match env.dedicatedRate iso with
  | none => .error .parsingError
  | some r => .ok [(iso, 1), ("USD", r)]

/-- `FreecurrencyratesParser.get_rate(iso_from, iso_to='USD')`: both isos
are upper-cased; identical isos short-circuit to `{iso: 1}`; otherwise the
rate element is read from the pair page and `{from: 1, to: number}` is
returned, or `ParsingError` when the element is missing. -/
def freecurrencyrates_get_rate (env : RateEnv) (iso_from iso_to : String) :
    Except ExchangerError (List (String × ℚ)) :=
  let f := pyUpper iso_from
  let t := pyUpper iso_to
  if f = t then .ok [(f, 1)]
  else
    match env.fiatRate f t with
    | none => .error .parsingError
    | some r => .ok [(f, 1), (t, r)]

/-- `CurrencyExchanger.check_rate_exists(iso_from, iso_to)`: each iso must
be a dedicated-parser key or accepted by the default fiat parser's
existence probe. -/
def check_rate_exists (env : RateEnv) (iso_from iso_to : String) : Bool :=
  (exchangerIsos.contains iso_from || env.fiatPageOk iso_from) &&
    (exchangerIsos.contains iso_to || env.fiatPageOk iso_to)

/-- `CurrencyExchanger.get_rate(iso_from, iso_to)`: raises
`CurrencyDoesNotExistError` when `check_rate_exists` fails; otherwise
dispatches each side to its dedicated parser (when the iso is a `parsers`
key — exactly those parsers carry an `iso` attribute) or to the default
fiat parser with target USD, computes `(1 / rate_to['USD']) *
rate_from.get('USD')` prettified, and converts any exception inside the
`try` block (parser failure, missing 'USD' key, division by zero) into a
`ParsingError`. -/
def exchanger_get_rate (env : RateEnv) (iso_from iso_to : String) :
    Except ExchangerError (List (String × ℚ)) :=
  if check_rate_exists env iso_from iso_to then
    let rate_from :=
      if exchangerIsos.contains iso_from then currencyParser_get_rate env iso_from
      else freecurrencyrates_get_rate env iso_from "USD"
    let rate_to :=
      if exchangerIsos.contains iso_to then currencyParser_get_rate env iso_to
      else freecurrencyrates_get_rate env iso_to "USD"
    match rate_from, rate_to with
    | .ok rf, .ok rt =>
      match rt.lookup "USD", rf.lookup "USD" with
      | some rtUSD, some rfUSD =>
        if rtUSD = 0 then .error .parsingError
        else .ok [(iso_from, 1), (iso_to, prettify_float (1 / rtUSD * rfUSD))]
      | _, _ => .error .parsingError
    | _, _ => .error .parsingError
  else
    .error .currencyNotFound

/-- The USD-denominated rate the aggregator's dispatch obtains for `iso`
under `env`: the dedicated parser's value for a `parsers` key, `1` for USD
itself, and the fiat pair page's value otherwise. -/
def rateUSD (env : RateEnv) (iso : String) : Option ℚ :=
  if exchangerIsos.contains iso then env.dedicatedRate iso
  else if pyUpper iso = "USD" then some 1
  else env.fiatRate (pyUpper iso) "USD"

/- ----------------------------------------------------------------
   utils/dt.py : datetime model
---------------------------------------------------------------- -/

/-- A Python `datetime.datetime` value: calendar fields plus an optional
fixed-offset `tzinfo`, recorded in minutes.  Microseconds are omitted
(every code path relevant to the claims zeroes or never sets them). -/
structure PyDatetime where
  year : Int
  month : Nat
  day : Nat
  hour : Nat
  minute : Nat
  second : Nat
  tzMin : Option Int
deriving DecidableEq, Repr

/-- Gregorian leap-year rule (as `calendar.isleap` / `datetime` use it). -/
def isLeap (y : Int) : Bool :=
  (y % 4 == 0 && y % 100 != 0) || y % 400 == 0

/-- Days in a month, used by `datetime.replace` for validating `day`. -/
def daysInMonth (y : Int) : Nat → Nat
  | 2 => if isLeap y then 29 else 28
  | m => if m = 4 ∨ m = 6 ∨ m = 9 ∨ m = 11 then 30 else 31

/-- Days from 1970-01-01 to the given civil date (the standard
days-from-civil conversion, used to give `datetime` values an epoch). -/
def daysFromCivil (y : Int) (m d : Nat) : Int :=
  let y' : Int := if m ≤ 2 then y - 1 else y
  let era : Int := Int.fdiv y' 400
  let yoe : Int := y' - era * 400
  let mp : Int := if m ≤ 2 then (m : Int) + 9 else (m : Int) - 3
  let doy : Int := Int.fdiv (153 * mp + 2) 5 + (d : Int) - 1
  let doe : Int := yoe * 365 + Int.fdiv yoe 4 - Int.fdiv yoe 100 + doy
  era * 146097 + doe - 719468

/-- Naive epoch of the calendar fields (seconds, ignoring the offset). -/
def naiveEpoch (t : PyDatetime) : Int :=
  daysFromCivil t.year t.month t.day * 86400 +
    (t.hour : Int) * 3600 + (t.minute : Int) * 60 + (t.second : Int)

/-- UTC instant of a timezone-aware datetime (what Python's aware-datetime
subtraction compares). -/
def utcEpoch (t : PyDatetime) (z : Int) : Int :=
  naiveEpoch t - z * 60

/-- `utils.dt.add_offset(d, utcoffset)`: tags `d` with a fixed
`timezone(timedelta(0, utcoffset*60*60))`. -/
def add_offset (d : PyDatetime) (utcoffset : Int) : PyDatetime :=
  { d with tzMin := some (utcoffset * 60) }

/-- Python `datetime.replace(day=..., hour=..., microsecond=0)`: the new
field values are validated against the calendar (day must be within the
current month, hour within 0..23) and `ValueError` is raised otherwise. -/
def pyReplaceDayHour (d : PyDatetime) (newDay newHour : Int) : Except PyErr PyDatetime :=
  if 1 ≤ newDay ∧ newDay ≤ (daysInMonth d.year d.month : Int) ∧
      0 ≤ newHour ∧ newHour ≤ 23 then
    .ok { d with day := newDay.toNat, hour := newHour.toNat }
  else
    .error .valueError

/-- `utils.dt.get_current_datetime(utcoffset)`, with the current UTC
instant `datetime.utcnow()` passed explicitly as `now` (a naive
datetime).  The offset must lie in `range(-11, 13)` (else the `assert`
fires); the shifted result is produced by `replace(day=n.day +
(n.hour+utcoffset)//24, hour=(n.hour+utcoffset)%24, microsecond=0)` and
then tagged with the fixed offset via `add_offset`.  (Python's floor
division and modulo agree with Lean's euclidean `Int` division here
because the divisor 24 is positive.) -/
def get_current_datetime (now : PyDatetime) (utcoffset : Int) : Except PyErr PyDatetime :=
  if -11 ≤ utcoffset ∧ utcoffset ≤ 12 then
    match pyReplaceDayHour now
        ((now.day : Int) + ((now.hour : Int) + utcoffset) / 24)
        (((now.hour : Int) + utcoffset) % 24) with
    | .ok t => .ok (add_offset t utcoffset)
    | .error e => .error e
  else
    .error .assertionError

/-- `utils.dt.check_datetime_in_future(up_to_date, utcoffset=0)`: requires
a timezone-aware argument and a valid offset; returns whether
`(now - up_to_date).total_seconds() <= 0`, i.e. whether `up_to_date` is at
or after the (offset-shifted, equally-offset-tagged) current time — which
for aware datetimes is the same as comparing UTC instants, so the check is
`utcEpoch up_to_date >= nowUtc` (inclusive boundary).  `nowUtc` is the
current UTC instant in epoch seconds; db.py always calls this with the
default `utcoffset=0`, which is the instantiation modelled here (shifting
`now` by an offset and tagging it with the same offset leaves its UTC
instant unchanged). -/
def check_datetime_in_future (up_to_date : PyDatetime) (nowUtc : Int) : Except PyErr Bool :=
  match up_to_date.tzMin with
  | none => .error .assertionError
  | some z => .ok (decide (nowUtc ≤ utcEpoch up_to_date z))

/- ----------------------------------------------------------------
   utils/decorators.py : rangetest
---------------------------------------------------------------- -/

/-- One bounds check of `rangetest`: `low < value < high` when
`strict_range` is set, `low <= value <= high` otherwise. -/
def rangeOk (strict : Bool) (low high value : ℚ) : Bool :=
  if strict then decide (low < value) && decide (value < high)
  else decide (low ≤ value) && decide (value ≤ high)

/-- The loop of `rangetest(...)(func)`s `wrapper` over the guarded
parameters (`privates.items()`).  `allvars` is
`allargs[:len(args)]` — the wrapped function's parameter names filled
positionally by this call.  For each guarded name, a keyword argument is
checked first (`argname in kwargs`); otherwise a positionally supplied
argument is checked (`argname in allvars`); a parameter that was not
supplied at all (so the function's own default applies) is never
checked. -/
def rangetestChecks (strict : Bool) :
    List (String × ℚ × ℚ) → List String → List ℚ → List (String × ℚ) → Bool
  | [], _, _, _ => true
  | (argname, low, high) :: rest, allvars, args, kwargs =>
    match kwargs.lookup argname with
    | some value =>
      rangeOk strict low high value &&
        rangetestChecks strict rest allvars args kwargs
    | none =>
      if argname ∈ allvars then
        rangeOk strict low high (args.getD (allvars.indexOf argname) 0) &&
          rangetestChecks strict rest allvars args kwargs
      else
        rangetestChecks strict rest allvars args kwargs

/-- `utils.decorators.rangetest`: wraps `func` (modelled as a closure over
the positional and keyword arguments; an omitted parameter means the
closure sees the function's own default) so that every guarded parameter
that the call supplies is bounds-checked before `func` runs; a violated
bound raises `AssertionError`. -/
def rangetest (strict : Bool) (privates : List (String × ℚ × ℚ))
    (allargs : List String) (args : List ℚ) (kwargs : List (String × ℚ))
    (func : List ℚ → List (String × ℚ) → ℚ) : Except PyErr ℚ :=
  let allvars := allargs.take args.length
  if rangetestChecks strict privates allvars args kwargs then
    .ok (func args kwargs)
  else
    .error .assertionError

/- ----------------------------------------------------------------
   datetime text formatting and parsing
   ('%Y-%m-%d %H:%M:%S' strftime/strptime, str(datetime), and SQLite's
   datetime() normalization — all needed by models/db.py)
---------------------------------------------------------------- -/

/-- Two-digit zero padding (`%m`, `%d`, `%H`, `%M`, `%S`). -/
def pad2 (n : Nat) : String :=
  if n < 10 then "0" ++ toString n else toString n

/-- Four-digit zero padding for `%Y` (stored years are positive). -/
def pad4 (n : Int) : String :=
  if n < 10 then "000" ++ toString n
  else if n < 100 then "00" ++ toString n
  else if n < 1000 then "0" ++ toString n
  else toString n

/-- `d.strftime('%Y-%m-%d %H:%M:%S')`. -/
def strftime_ymd_hms (t : PyDatetime) : String :=
  pad4 t.year ++ "-" ++ pad2 t.month ++ "-" ++ pad2 t.day ++ " " ++
    pad2 t.hour ++ ":" ++ pad2 t.minute ++ ":" ++ pad2 t.second

/-- The `+HH:MM`/`-HH:MM` utcoffset suffix `str(d)` appends for an aware
datetime. -/
def pyStrOffset (z : Int) : String :=
  let az := z.natAbs
  (if z < 0 then "-" else "+") ++ pad2 (az / 60) ++ ":" ++ pad2 (az % 60)

/-- Python `str(d)` for a datetime: the naive text plus, for an aware
value, the utcoffset suffix. -/
def pyStrDatetime (t : PyDatetime) : String :=
  strftime_ymd_hms t ++
    (match t.tzMin with
      | Option.none => ""
      | some z => pyStrOffset z)

/-- Read exactly `n` decimal digits. -/
def readDigits : Nat → Nat → List Char → Option (Nat × List Char)
  | 0, acc, cs => some (acc, cs)
  | n + 1, acc, c :: cs =>
    if c.isDigit then readDigits n (acc * 10 + (c.toNat - 48)) cs
    else Option.none
  | _ + 1, _, [] => Option.none

/-- Expect one literal character. -/
def expectChar (ch : Char) : List Char → Option (List Char)
  | c :: cs => if c = ch then some cs else Option.none
  | [] => Option.none

/-- Parse the `%Y-%m-%d %H:%M:%S` prefix of a character list, validating
the calendar ranges as `datetime.strptime` does, and return the remaining
characters.  (Python's `strptime` also tolerates unpadded digits; the
strings this program parses are produced by `strftime`/`str`, on which the
fixed-width reading agrees.) -/
def parseYmdHms (cs : List Char) : Option (PyDatetime × List Char) :=
  match readDigits 4 0 cs with
  | Option.none => Option.none
  | some (y, cs) =>
  match expectChar '-' cs with
  | Option.none => Option.none
  | some cs =>
  match readDigits 2 0 cs with
  | Option.none => Option.none
  | some (mo, cs) =>
  match expectChar '-' cs with
  | Option.none => Option.none
  | some cs =>
  match readDigits 2 0 cs with
  | Option.none => Option.none
  | some (d, cs) =>
  match expectChar ' ' cs with
  | Option.none => Option.none
  | some cs =>
  match readDigits 2 0 cs with
  | Option.none => Option.none
  | some (h, cs) =>
  match expectChar ':' cs with
  | Option.none => Option.none
  | some cs =>
  match readDigits 2 0 cs with
  | Option.none => Option.none
  | some (mi, cs) =>
  match expectChar ':' cs with
  | Option.none => Option.none
  | some cs =>
  match readDigits 2 0 cs with
  | Option.none => Option.none
  | some (s, cs) =>
    if 1 ≤ mo ∧ mo ≤ 12 ∧ 1 ≤ d ∧ d ≤ daysInMonth (y : Int) mo ∧
        h ≤ 23 ∧ mi ≤ 59 ∧ s ≤ 59 then
      some (⟨(y : Int), mo, d, h, mi, s, Option.none⟩, cs)
    else Option.none

/-- `datetime.strptime(s, '%Y-%m-%d %H:%M:%S')`: the whole string must be
consumed; failure raises `ValueError` at the call sites. -/
def strptime_ymd_hms (s : String) : Option PyDatetime :=
  match parseYmdHms s.data with
  | some (t, []) => some t
  | _ => Option.none

/-- Parse a `±HH:MM` offset suffix (as produced by `str(d)` on an aware
datetime); returns the signed offset in seconds. -/
def parseOffsetSuffix : List Char → Option Int
  | c :: rest =>
    if c = '+' ∨ c = '-' then
      match readDigits 2 0 rest with
      | some (hh, rest) =>
        match expectChar ':' rest with
        | some rest =>
          match readDigits 2 0 rest with
          | some (mm, []) =>
            let off : Int := (hh : Int) * 3600 + (mm : Int) * 60
            some (if c = '-' then -off else off)
          | _ => Option.none
        | _ => Option.none
      | _ => Option.none
    else Option.none
  | [] => Option.none

/-- `datetime.strptime(s, '%Y-%m-%d %H:%M:%S%z')`: the `%z` directive
requires an offset suffix. -/
def strptime_ymd_hms_z (s : String) : Option PyDatetime :=
  match parseYmdHms s.data with
  | some (t, rest) =>
    match parseOffsetSuffix rest with
    | some off => some { t with tzMin := some (off / 60) }
    | Option.none => Option.none
  | Option.none => Option.none

/-- SQLite's `datetime(text)` as a UTC epoch: parses the canonical
`YYYY-MM-DD HH:MM:SS` form with an optional `±HH:MM` suffix (which SQLite
subtracts to normalize the value to UTC); an unparsable string yields
NULL, modelled as `none`. -/
def sqliteDatetimeEpoch (s : String) : Option Int :=
  match parseYmdHms s.data with
  | some (t, []) => some (naiveEpoch t)
  | some (t, rest) =>
    match parseOffsetSuffix rest with
    | some off => some (naiveEpoch t - off)
    | Option.none => Option.none
  | Option.none => Option.none

/- ----------------------------------------------------------------
   models/db.py : the SQLite storage layer
---------------------------------------------------------------- -/

/-- A value stored in an SQLite column. -/
inductive SQLVal
  | int (n : Int)
  | real (q : ℚ)
  | text (s : String)
  | null
deriving DecidableEq, Repr

/-- A fetched row.  `DBHandlerBase.dict_factory` is installed as the
connection's `row_factory`, so every row comes back as a Python dict keyed
by the column names in `cursor.description` order — modelled as an ordered
association list. -/
abbrev Row := List (String × SQLVal)

/-- SQLite `=` between stored/bound values: numeric values compare
numerically across `INTEGER`/`REAL`, text compares as text, values of
different storage classes (and NULLs) compare unequal. -/
def sqlEq : SQLVal → SQLVal → Bool
  | .int a, .int b => a == b
  | .real a, .real b => a == b
  | .int a, .real b => ((a : ℚ) == b)
  | .real a, .int b => (a == (b : ℚ))
  | .text a, .text b => a == b
  | _, _ => false

/-- The column value of a row (total lookup; all rows carry their full
schema). -/
def rowVal (r : Row) (k : String) : SQLVal :=
  (r.lookup k).getD .null

/-- A Python value appearing as an argument or keyword argument of the
storage operations. -/
inductive Py
  | none
  | bool (b : Bool)
  | int (n : Int)
  | float (q : ℚ)
  | str (s : String)
  | dt (t : PyDatetime)
deriving DecidableEq, Repr

/-- Python truthiness of the embedded values. -/
def Py.truthy : Py → Bool
  | .none => false
  | .bool b => b
  | .int n => n != 0
  | .float q => q != 0
  | .str s => !(s == "")
  | .dt _ => true

/-- How `sqlite3` binds a Python parameter into a statement (bools become
0/1 integers; a datetime reaching a binding in this code has already been
turned into text by the caller, but the default adapter would store its
`str()` form). -/
def toSQL : Py → SQLVal
  | .none => .null
  | .bool b => .int (if b then 1 else 0)
  | .int n => .int n
  | .float q => .real q
  | .str s => .text s
  | .dt t => .text (pyStrDatetime t)

/-- Python `dict.__getitem__` on a fetched row: the keys installed by
`dict_factory` are the column-name strings, so only a string key can hit;
any other key (such as the integer `0` in `pred_data[0]`) raises
`KeyError`. -/
def pyDictGet (row : Row) (k : Py) : Except PyErr SQLVal :=
  match k with
  | .str s =>
    match row.lookup s with
    | some v => .ok v
    | Option.none => .error .keyError
  | _ => .error .keyError

/-- The state of the `DBHandler` database: the four domain tables plus the
`AUTOINCREMENT` counter of `currency_predictions.id`. -/
structure DB where
  users : List Row
  users_rates : List Row
  currency_predictions : List Row
  predictions_reactions : List Row
  next_pred_id : Int
deriving DecidableEq, Repr

/-- A freshly `setup_db`-initialised database. -/
def emptyDB : DB := ⟨[], [], [], [], 1⟩

/-- `DBHandler.check_user_exists(user_id)`:
`SELECT user_id FROM users WHERE user_id = ?` has a row. -/
def check_user_exists (db : DB) (uid : SQLVal) : Bool :=
  db.users.any (fun r => sqlEq (rowVal r "user_id") uid)

/-- `DBHandler.check_prediction_exists(pred_id)`. -/
def check_prediction_exists (db : DB) (pid : SQLVal) : Bool :=
  db.currency_predictions.any (fun r => sqlEq (rowVal r "id") pid)

/-- `DBHandler.add_user(user_id, is_active=True, is_pro=False,
is_staff=False, to_notify_by_experts=True, timezone=0, language='en')`:
a datetime `is_pro` is stored via `strftime('%Y-%m-%d %H:%M:%S')`; the
`UNIQUE(user_id) ON CONFLICT REPLACE` clause replaces an existing row; the
schema's CHECK constraints on `timezone` and `language` raise
`IntegrityError` when violated.  Returns `True`. -/
def add_user (db : DB) (user_id : Int) (is_active : Bool) (is_pro : Py)
    (is_staff to_notify_by_experts : Bool) (timezone : Int)
    (language : String) : Except PyErr (DB × Bool) :=
  if -11 ≤ timezone ∧ timezone ≤ 12 ∧
      (language.length = 2 ∨ language.length = 3) then
    let is_pro' : Py :=
      match is_pro with
      | .dt t => .str (strftime_ymd_hms t)
      | p => p
    let row : Row :=
      [("user_id", .int user_id), ("is_active", toSQL (.bool is_active)),
        ("is_pro", toSQL is_pro'), ("is_staff", toSQL (.bool is_staff)),
        ("to_notify_by_experts", toSQL (.bool to_notify_by_experts)),
        ("timezone", .int timezone), ("language", .text language)]
    .ok ({ db with users :=
      db.users.filter (fun r => !(sqlEq (rowVal r "user_id") (.int user_id)))
        ++ [row] }, true)
  else
    .error .integrityError

/-- `DBHandler.get_user_rates(user_id)`: the join of `users` and
`users_rates` on `u.user_id = u_r.user_id AND u.user_id = ?`.  Each
returned row is a dict (because of `dict_factory`), and the comprehension
slices it (`rate[:-1]`), which raises `TypeError` (a `slice` is not a
valid dict key); with no matching rows the result is the empty list. -/
def get_user_rates (db : DB) (uid : Py) : Except PyErr (List (List Py)) :=
  let joined := db.users.foldr
    (fun u acc =>
      db.users_rates.filter
        (fun r => sqlEq (rowVal u "user_id") (rowVal r "user_id") &&
          sqlEq (rowVal u "user_id") (toSQL uid)) ++ acc)
    []
  if joined.isEmpty then .ok [] else .error .typeError

/-- The composed profile `get_user` is documented to return. -/
structure UserProfile where
  user_id : Py
  is_active : Py
  is_pro : Py
  is_staff : Py
  to_notify_by_experts : Py
  rates : List (List Py)
  timezone : Py
  language : Py
deriving DecidableEq, Repr

/-- `DBHandler.get_user(user_id)`: returns `None` when the user does not
exist; otherwise unpacks `list(execute('SELECT * ...')[0])` into seven
variables.  Because `dict_factory` makes the row a dict, `list(row)`
yields the column-name strings (in schema order), so each unpacked
variable holds a column name; `get_user_rates` is then called with the
string `'user_id'`, and `is_pro` — the string `'is_pro'` — hits the
`isinstance(is_pro, str)` branch, whose `datetime.strptime` raises
`ValueError`. -/
def get_user (db : DB) (uid : Py) : Except PyErr (Option UserProfile) :=
  if check_user_exists db (toSQL uid) then
    match db.users.filter (fun r => sqlEq (rowVal r "user_id") (toSQL uid)) with
    | [] => .error .keyError
    | row :: _ =>
      match row.map Prod.fst with
      | [k1, k2, k3, k4, k5, k6, k7] =>
        let v_user_id : Py := .str k1
        let v_is_pro : Py := .str k3
        match get_user_rates db v_user_id with
        | .error e => .error e
        | .ok rates =>
          match v_is_pro with
          | .str s =>
            match strptime_ymd_hms s with
            | some t =>
              .ok (some ⟨v_user_id, .str k2, .dt t, .str k4, .str k5,
                rates, .str k6, .str k7⟩)
            | Option.none => .error .valueError
          | p =>
            .ok (some ⟨v_user_id, .str k2, p, .str k4, .str k5,
              rates, .str k6, .str k7⟩)
      | _ => .error .valueError
  else
    .ok none

/-- `DBHandler.add_prediction(user_id, iso_from, iso_to, value,
up_to_date, is_by_experts=False)`: guarded by `rangetest(value=(0, inf))`
(here `value` is always supplied, so the bound is always checked); returns
`False` when the user does not exist; asserts `up_to_date` is in the
future (inclusive `check_datetime_in_future`); stores `str(up_to_date)`;
the new row takes the next `AUTOINCREMENT` id. -/
def add_prediction (db : DB) (nowUtc : Int) (user_id : Int)
    (iso_from iso_to : String) (value : ℚ) (up_to_date : PyDatetime)
    (is_by_experts : Bool) : Except PyErr (DB × Py) :=
  if ¬(0 < value) then .error .assertionError
  else if check_user_exists db (.int user_id) then
    match check_datetime_in_future up_to_date nowUtc with
    | .error e => .error e
    | .ok false => .error .assertionError
    | .ok true =>
      let row : Row :=
        [("id", .int db.next_pred_id), ("user_id", .int user_id),
          ("iso_from", .text iso_from), ("iso_to", .text iso_to),
          ("value", .real value),
          ("up_to_date", .text (pyStrDatetime up_to_date)),
          ("is_by_experts", toSQL (.bool is_by_experts)),
          ("real_value", .null)]
      .ok ({ db with
        currency_predictions := db.currency_predictions ++ [row],
        next_pred_id := db.next_pred_id + 1 }, .bool true)
  else
    .ok (db, .bool false)

/-- `DBHandler.toggle_prediction_reaction(pred_id, user_id, if_like)`:
`None` result unless both the prediction and the user exist; deletes any
prior reaction of the pair and, unless `if_like is None`, inserts the new
one. -/
def toggle_prediction_reaction (db : DB) (pred_id user_id : Int)
    (if_like : Py) : DB × Py :=
  if check_prediction_exists db (.int pred_id) &&
      check_user_exists db (.int user_id) then
    let cleared := db.predictions_reactions.filter
      (fun r => !(sqlEq (rowVal r "pred_id") (.int pred_id) &&
        sqlEq (rowVal r "user_id") (.int user_id)))
    let inserted :=
      if if_like = Py.none then cleared
      else cleared ++
        [[("pred_id", SQLVal.int pred_id), ("user_id", SQLVal.int user_id),
          ("reaction", toSQL if_like)]]
    ({ db with predictions_reactions := inserted }, .bool true)
  else
    (db, Py.none)

/-- `DBHandler.delete_prediction(pred_id)`: deletes the prediction row.
`db.py` never issues `PRAGMA foreign_keys = ON`, so SQLite's default
leaves foreign keys unenforced and the declared `ON DELETE CASCADE` on
`predictions_reactions` (whose FOREIGN KEY moreover references the
nonexistent column `currency_predictions(pred_id)`) never fires: reaction
rows stay behind. -/
def delete_prediction (db : DB) (pred_id : Int) : DB × Bool :=
  let keep := db.currency_predictions.filter
    (fun r => !(sqlEq (rowVal r "id") (.int pred_id)))
  ({ db with currency_predictions := keep }, true)

/-- `DBHandler.get_prediction(pred_id)`: `None` when absent; otherwise
star-unpacks `list`-iterated dict keys, so `up_to_date` receives the
string `'up_to_date'` and `datetime.strptime(..., '%Y-%m-%d %H:%M:%S%z')`
raises `ValueError`. -/
def get_prediction (db : DB) (pid : SQLVal) : Except PyErr (Option (List Py)) :=
  if check_prediction_exists db pid then
    match db.currency_predictions.filter (fun r => sqlEq (rowVal r "id") pid) with
    | [] => .error .keyError
    | row :: _ =>
      match row.map Prod.fst with
      | [k1, k2, k3, k4, k5, k6, k7, k8] =>
        match strptime_ymd_hms_z k6 with
        | some t =>
          .ok (some [.str k1, .str k2, .str k3, .str k4, .str k5,
            .dt t, .str k7, .str k8])
        | Option.none => .error .valueError
      | _ => .error .valueError
  else
    .ok none

/-- `TOTAL(r.reaction)` over the outer join restricted to one prediction:
the float sum of its reaction values (`0.0` with no reactions). -/
def total_reactions (db : DB) (pid : SQLVal) : ℚ :=
  (db.predictions_reactions.filter
      (fun r => sqlEq (rowVal r "pred_id") pid)).foldr
    (fun r acc =>
      (match rowVal r "reaction" with
        | .int n => (n : ℚ)
        | .real q => q
        | _ => 0) + acc)
    0

/-- SQLite `CAST(x AS INT)`: truncation toward zero. -/
def castInt (q : ℚ) : Int := Int.tdiv q.num (q.den : Int)

/-- Sort key of the `ORDER BY likes_diff DESC` clause. -/
def likesDiffOf (r : Row) : Int :=
  match rowVal r "likes_diff" with
  | .int n => n
  | _ => 0

/-- Stable descending insertion for `ORDER BY ... DESC`. -/
def insertRowDesc (r : Row) : List Row → List Row
  | [] => [r]
  | x :: xs =>
    if likesDiffOf x < likesDiffOf r then r :: x :: xs
    else x :: insertRowDesc r xs

/-- Stable descending sort for `ORDER BY ... DESC`. -/
def sortRowsDesc : List Row → List Row
  | [] => []
  | r :: rs => insertRowDesc r (sortRowsDesc rs)

/-- The SQL of `get_max_liked_predictions`: still-future predictions
(`datetime(p.up_to_date) > datetime()`), left-outer-joined with their
reactions, grouped per prediction with `CAST(TOTAL(r.reaction) AS INT)`
aliased `likes_diff`, ordered by it descending.  Each result row is the
dict `{'id': ..., 'likes_diff': ...}`. -/
def max_liked_rows (db : DB) (nowUtc : Int) : List Row :=
  let futures := db.currency_predictions.filter (fun p =>
    match rowVal p "up_to_date" with
    | .text s =>
      match sqliteDatetimeEpoch s with
      | some e => decide (nowUtc < e)
      | Option.none => false
    | _ => false)
  sortRowsDesc (futures.map (fun p =>
    [("id", rowVal p "id"),
      ("likes_diff", SQLVal.int (castInt (total_reactions db (rowVal p "id"))))]))

/-- `DBHandler.get_max_liked_predictions()`: the list comprehension
evaluates `self.get_prediction(pred_data[0])` for each result row —
`pred_data[0]` indexes the dict row with the integer `0`, raising
`KeyError` as soon as any still-future prediction exists. -/
def get_max_liked_predictions (db : DB) (nowUtc : Int) :
    Except PyErr (List (Option (List Py))) :=
  (max_liked_rows db nowUtc).mapM (fun r => do
    let k ← pyDictGet r (.int 0)
    get_prediction db k)

/-- `kwargs.get(k, None)`. -/
def pyGet (kwargs : List (String × Py)) (k : String) : Py :=
  (kwargs.lookup k).getD .none

/-- Python `a or b`. -/
def pyOr (a b : Py) : Py := if a.truthy then a else b

/-- One guarded-kwarg check of `rangetest(value=(0, inf),
real_value=(0, inf))` as applied to `change_prediction` (the guarded names
can only arrive as keywords there): `0 < v < inf` for a numeric value,
`TypeError` for a non-numeric one, nothing when absent. -/
def checkPosArg (kwargs : List (String × Py)) (name : String) : Option PyErr :=
  match kwargs.lookup name with
  | Option.none => Option.none
  | some (.int n) => if 0 < n then Option.none else some .assertionError
  | some (.float q) => if 0 < q then Option.none else some .assertionError
  | some (.bool b) => if b then Option.none else some .assertionError
  | some _ => some .typeError

/-- The `rangetest` wrapper of `change_prediction`, checking `value` then
`real_value`. -/
def rangetestValueRealValue (kwargs : List (String × Py)) : Option PyErr :=
  match checkPosArg kwargs "value" with
  | some e => some e
  | Option.none => checkPosArg kwargs "real_value"

/-- The columns of `currency_predictions`; an `UPDATE` against any other
name raises `OperationalError`, which `change_prediction` re-raises as
`ValueError`. -/
def predColumns : List String :=
  ["id", "user_id", "iso_from", "iso_to", "value", "up_to_date",
    "is_by_experts", "real_value"]

/-- Set one column of a row. -/
def updatePredRow (r : Row) (k : String) (v : SQLVal) : Row :=
  r.map (fun p => if p.1 = k then (k, v) else p)

/-- The per-kwarg `UPDATE` loop of `change_prediction`: each valid column
is written in turn (updates before a failing key persist, matching the
connection's behaviour when the loop raises midway); an invalid column
name stops the loop with `ValueError`. -/
def applyPredUpdates : DB → Int → List (String × Py) → Except PyErr (Option Bool) × DB
  | db, _, [] => (.ok (some true), db)
  | db, id, (k, v) :: rest =>
    if predColumns.contains k then
      let preds := db.currency_predictions.map (fun r =>
        if sqlEq (rowVal r "id") (.int id) then updatePredRow r k (toSQL v)
        else r)
      applyPredUpdates { db with currency_predictions := preds } id rest
    else
      (.error .valueError, db)

/-- `DBHandler.change_prediction(id, **kwargs)`: wrapped by
`rangetest(value=(0, inf), real_value=(0, inf))`; `None` when the
prediction does not exist; asserts
`(kwargs.get('iso_from') or kwargs.get('iso_to')) is None` (note: a falsy
supplied value such as `''` slips through), asserts `'user_id' not in
kwargs`, and when `up_to_date` is supplied as a datetime requires it to be
timezone-aware and at-or-after now (then replaces it by `str(...)` in the
kwargs); finally applies the per-column updates.  The paired `DB` is the
state after the call (unchanged on every pre-update failure). -/
def change_prediction (db : DB) (nowUtc : Int) (id : Int)
    (kwargs : List (String × Py)) : Except PyErr (Option Bool) × DB :=
  match rangetestValueRealValue kwargs with
  | some e => (.error e, db)
  | Option.none =>
    if check_prediction_exists db (.int id) then
      if pyOr (pyGet kwargs "iso_from") (pyGet kwargs "iso_to") = Py.none then
        if (kwargs.map Prod.fst).contains "user_id" then
          (.error .assertionError, db)
        else
          match pyGet kwargs "up_to_date" with
          | .dt t =>
            match check_datetime_in_future t nowUtc with
            | .error e => (.error e, db)
            | .ok false => (.error .assertionError, db)
            | .ok true =>
              applyPredUpdates db id (kwargs.map (fun p =>
                if p.1 = "up_to_date" then ("up_to_date", Py.str (pyStrDatetime t))
                else p))
          | _ => applyPredUpdates db id kwargs
      else
        (.error .assertionError, db)
    else
      (.ok none, db)

/- ----------------------------------------------------------------
   models/logger.py : Logger
---------------------------------------------------------------- -/

/-- Python `str.lower()` restricted to ASCII (log kinds are ASCII). -/
def pyLowerChar (c : Char) : Char :=
  if 'A' ≤ c ∧ c ≤ 'Z' then Char.ofNat (c.toNat + 32) else c

/-- Python `str.lower()`. -/
def pyLower (s : String) : String :=
  String.mk (s.data.map pyLowerChar)

/-- One numbered log file: its number (`log<index>.log`) and the lines
written to it. -/
structure LogFile where
  index : Nat
  content : List String
deriving DecidableEq, Repr

/-- `os.path.getsize` of a log file: every write appends
`message + "\n"`, flushed immediately, so the size is the sum of the line
lengths plus one newline byte each (the logged text is ASCII). -/
def logfileSize (f : LogFile) : Nat :=
  (f.content.map (fun s => s.length + 1)).sum

/-- `Logger.MAX_SIZE = 100 * 1024` bytes. -/
def MAX_SIZE : Nat := 100 * 1024

/-- `Logger.LOG_LEVELS` (the per-level console colors only affect
terminal output and are omitted). -/
def LOG_LEVELS (s : String) : Option Nat :=
  if s = "error" then some 40
  else if s = "warning" then some 30
  else if s = "info" then some 20
  else if s = "debug" then some 10
  else none

/-- The `Logger` state: the running file counter, the closed (rotated)
files, the open file, and the minimum level. -/
structure Logger where
  log_count : Nat
  closedFiles : List LogFile
  current : LogFile
  log_level : String
deriving DecidableEq, Repr

/-- `Logger.__init__`: `log_count` starts at 0 and `create_logfile`
bumps it to 1 and opens `log1.log`; the minimum level is `'info'`. -/
def mkLogger : Logger := ⟨1, [], ⟨1, []⟩, "info"⟩

/-- `Logger.log(message, kind=...)`, with `datetime.utcnow()`'s formatted
text passed explicitly as `nowStr`: an unknown kind triggers the
`assert`; a message below the minimum level is dropped; otherwise the
prefixed line is written (and flushed) to the open file, and only
afterwards, if the file's size has reached `MAX_SIZE`, `update_logfile`
closes it and opens the next numbered file. -/
def Logger.log (lg : Logger) (nowStr message kind : String) :
    Except PyErr Logger :=
  match LOG_LEVELS (pyLower kind) with
  | Option.none => .error .assertionError
  | some lvl =>
    if (LOG_LEVELS lg.log_level).getD 0 ≤ lvl then
      let msg := "[" ++ nowStr ++ "] [" ++ pyUpper kind ++ "] " ++ message
      let cur : LogFile := ⟨lg.current.index, lg.current.content ++ [msg]⟩
      if logfileSize cur < MAX_SIZE then
        .ok { lg with current := cur }
      else
        .ok { lg with
          log_count := lg.log_count + 1,
          closedFiles := lg.closedFiles ++ [cur],
          current := ⟨lg.log_count + 1, []⟩ }
    else
      .ok lg

/-- A sequence of `log` calls. -/
def runLog (lg : Logger) : List (String × String × String) → Except PyErr Logger
  | [] => .ok lg
  | (now, msg, kind) :: rest =>
    match lg.log now msg kind with
    | .error e => .error e
    | .ok lg' => runLog lg' rest

/-- The consecutive file numbers `s, s+1, ..., s+n-1`. -/
def seqIdx : Nat → Nat → List Nat
  | _, 0 => []
  | s, n + 1 => s :: seqIdx (s + 1) n

/-- The logger's rotation invariant: every closed file reached `MAX_SIZE`
only with its final line (it was under the cap before that write and at or
over it after), the open file is under the cap, and the files are numbered
sequentially with the open file carrying the current counter. -/
def LoggerInv (lg : Logger) : Prop :=
  (∀ f ∈ lg.closedFiles,
    MAX_SIZE ≤ logfileSize f ∧
      logfileSize ⟨f.index, f.content.dropLast⟩ < MAX_SIZE) ∧
  logfileSize lg.current < MAX_SIZE ∧
  lg.current.index = lg.log_count ∧
  lg.closedFiles.map (fun f => f.index) = seqIdx 1 (lg.log_count - 1) ∧
  1 ≤ lg.log_count

/- ----------------------------------------------------------------
   main.py : the process entry point
---------------------------------------------------------------- -/

/-- What happens to a daemon thread once its target returns or raises. -/
inductive ThreadOutcome
  | finished
  | died
deriving DecidableEq, Repr

/-- A task body as a stream of attempts: `body k = true` means the k-th
invocation raises, `false` means it returns normally. -/
def runThread (body : Nat → Bool) : Nat × ThreadOutcome :=
  (1, if body 0 then .died else .finished)

/-- `main.infinite_loop(func)` (fuelled): repeatedly invokes the body,
printing and swallowing any exception and retrying, until an invocation
returns normally (`else: break`).  Returns the number of invocations made
within `fuel` iterations and whether the loop terminated. -/
def infinite_loop_go (body : Nat → Bool) : Nat → Nat → Nat × Bool
  | _, 0 => (0, false)
  | k, fuel + 1 =>
    if body k then
      let r := infinite_loop_go body (k + 1) fuel
      (r.1 + 1, r.2)
    else
      (1, true)

/-- `infinite_loop` started at attempt 0. -/
def infinite_loop (body : Nat → Bool) (fuel : Nat) : Nat × Bool :=
  infinite_loop_go body 0 fuel

/-- The `targets` list of `main.py`'s `__main__` block. -/
def mainTargets : List String :=
  ["check_alarm_times", "update_rates", "check_premium_ended",
    "verify_predictions", "techsupport_main", "infinity_polling"]

/-- The `__main__` startup: each target is passed directly to
`threading.Thread(target=target, daemon=True)` — not wrapped in
`infinite_loop` — so each thread invokes its body exactly once and dies if
it raises (the process itself survives: the main thread sleeps in its own
loop). -/
def mainLaunch (bodies : String → Nat → Bool) :
    List (String × Nat × ThreadOutcome) :=
  mainTargets.map (fun n => (n, runThread (bodies n)))

end CTB

/-- Helper: the `rangetest` check loop accepts vacuously when no guarded
parameter was supplied by the call. -/
theorem CTB.rangetestChecks_of_unsupplied (strict : Bool) (allvars : List String)
    (args : List ℚ) (kwargs : List (String × ℚ)) :
    ∀ privates : List (String × ℚ × ℚ),
      (∀ p ∈ privates, kwargs.lookup p.1 = none ∧ p.1 ∉ allvars) →
      CTB.rangetestChecks strict privates allvars args kwargs = true := by
  intro privates
  induction privates with
  | nil => intro _; rfl
  | cons p rest ih =>
    intro h
    obtain ⟨hk, hv⟩ := h p (by simp)
    obtain ⟨name, low, high⟩ := p
    unfold CTB.rangetestChecks
    rw [hk]
    simp only [hv, if_false]
    exact ih fun q hq => h q (by simp [hq])

/-- Evaluation helper for `prettify_float` at concrete inputs. -/
theorem CTB.prettify_float_eval (x : ℚ) (n : ℤ) (h : round (x * 100000) = n) :
    CTB.prettify_float x = (n : ℚ) / 100000 := by
  unfold CTB.prettify_float
  rw [h]

/-- Claim C7: `calculate_difference(100, 101)` yields a positive percentage
difference of about +0.0099 and a difference of +1; `calculate_difference
(100, 99)` yields a negative percentage difference and a difference of -1;
and `check_delta` removes the `new`/`percentage_difference`/`difference`
fields exactly when the absolute percentage difference is below the
supplied `percent_delta` (for example old=100, new=100.5,
percent_delta=0.01 suppresses them). -/
theorem CTB.calculate_difference_check_delta_spec :
    ((CTB.calculate_difference 100 101).percentage_difference = 99 / 10000 ∧
      0 < (CTB.calculate_difference 100 101).percentage_difference ∧
      (CTB.calculate_difference 100 101).difference = 1) ∧
    ((CTB.calculate_difference 100 99).percentage_difference < 0 ∧
      (CTB.calculate_difference 100 99).difference = -1) ∧
    (∀ (iso : String) (sv f : ℚ) (old new : Option ℚ) (pd : ℚ),
      ((CTB.check_delta iso sv f old new pd).percentage_difference = none ∧
        (CTB.check_delta iso sv f old new pd).newVal = none ∧
        (CTB.check_delta iso sv f old new pd).difference = none) ↔
      |(CTB.calculate_difference (CTB.pyOrQ old sv)
          (CTB.pyOrQ new f)).percentage_difference| < pd) ∧
    ((CTB.check_delta "BTC" 1 1 (some 100) (some (201 / 2))
        (1 / 100)).percentage_difference = none) := by
  have h1 : CTB.prettify_float (((100 : ℚ) - 101) / max (100 : ℚ) 101) =
      (-990 : ℤ) / 100000 := by
    refine CTB.prettify_float_eval _ _ ?_
    rw [max_eq_right (by norm_num : (100 : ℚ) ≤ 101)]
    norm_num [round_eq]
  have h2 : CTB.prettify_float (-((100 : ℚ) - 101)) = (100000 : ℤ) / 100000 := by
    refine CTB.prettify_float_eval _ _ ?_
    norm_num [round_eq]
  have h3 : CTB.prettify_float (((100 : ℚ) - 99) / max (100 : ℚ) 99) =
      (1000 : ℤ) / 100000 := by
    refine CTB.prettify_float_eval _ _ ?_
    rw [max_eq_left (by norm_num : (99 : ℚ) ≤ 100)]
    norm_num [round_eq]
  have h4 : CTB.prettify_float (-((100 : ℚ) - 99)) = (-100000 : ℤ) / 100000 := by
    refine CTB.prettify_float_eval _ _ ?_
    norm_num [round_eq]
  have h5 : CTB.prettify_float (((100 : ℚ) - 201 / 2) / max (100 : ℚ) (201 / 2)) =
      (-498 : ℤ) / 100000 := by
    refine CTB.prettify_float_eval _ _ ?_
    rw [max_eq_right (by norm_num : (100 : ℚ) ≤ 201 / 2)]
    norm_num [round_eq]
  refine ⟨⟨?_, ?_, ?_⟩, ⟨?_, ?_⟩, ?_, ?_⟩
  · simp only [CTB.calculate_difference, h1]; norm_num
  · simp only [CTB.calculate_difference, h1]; norm_num
  · simp only [CTB.calculate_difference, h2]; norm_num
  · simp only [CTB.calculate_difference, h3]; norm_num
  · simp only [CTB.calculate_difference, h4]; norm_num
  · intro iso sv f old new pd
    unfold CTB.check_delta
    dsimp only
    split
    · simp_all
    · simp_all
  · show (CTB.check_delta "BTC" 1 1 (some 100) (some (201 / 2))
        (1 / 100)).percentage_difference = none
    have h6 : CTB.prettify_float (-(1 / 201) : ℚ) = ((-498 : ℤ) : ℚ) / 100000 := by
      refine CTB.prettify_float_eval _ _ ?_
      norm_num [round_eq]
    unfold CTB.check_delta CTB.pyOrQ
    norm_num [CTB.calculate_difference, h6]
    rw [abs_of_pos (by norm_num : (0 : ℚ) < 249 / 50000)]
    norm_num

/-- Claim C10: for every function wrapped by the `rangetest` wrapper and
every guarded parameter name, the range check runs only when the call
supplies that parameter explicitly (positionally among the passed
arguments, or by keyword); when every guarded parameter is omitted so the
function's default applies, the wrapper invokes the function with no range
check at all — and conversely, a parameter supplied by keyword with an
out-of-range value makes the wrapper fail. -/
theorem CTB.rangetest_omitted_param_unchecked :
    (∀ (strict : Bool) (privates : List (String × ℚ × ℚ))
        (allargs : List String) (args : List ℚ) (kwargs : List (String × ℚ))
        (func : List ℚ → List (String × ℚ) → ℚ),
      (∀ p ∈ privates,
          kwargs.lookup p.1 = none ∧ p.1 ∉ allargs.take args.length) →
      CTB.rangetest strict privates allargs args kwargs func =
        .ok (func args kwargs)) ∧
    (∀ (strict : Bool) (name : String) (low high : ℚ)
        (rest : List (String × ℚ × ℚ)) (allargs : List String)
        (args : List ℚ) (kwargs : List (String × ℚ))
        (func : List ℚ → List (String × ℚ) → ℚ) (v : ℚ),
      kwargs.lookup name = some v →
      CTB.rangeOk strict low high v = false →
      CTB.rangetest strict ((name, low, high) :: rest) allargs args kwargs
          func = .error .assertionError) := by
  constructor
  · intro strict privates allargs args kwargs func h
    have hc := CTB.rangetestChecks_of_unsupplied strict
      (allargs.take args.length) args kwargs privates h
    simp [CTB.rangetest, hc]
  · intro strict name low high rest allargs args kwargs func v hk hbad
    simp [CTB.rangetest, CTB.rangetestChecks, hk, hbad]

/-- Witness for Claim C10: the storage layer's
`rangetest(start_value=(0, inf))` guard on
`add_user_rate(self, user_id, iso, start_value=1, ...)` is skipped when the
call `add_user_rate(self, 42)` leaves `start_value` to its default:
the wrapped function runs even though the bound would also admit nothing
supplied, and a keyword call with `start_value=0` fails. -/
theorem CTB.rangetest_omitted_param_unchecked_witness :
    CTB.rangetest true [("start_value", 0, 1000000)]
        ["self", "user_id", "iso", "start_value", "percent_delta"]
        [0, 42] [] (fun _ _ => 7) = .ok 7 ∧
    CTB.rangetest true [("start_value", 0, 1000000)]
        ["self", "user_id", "iso", "start_value", "percent_delta"]
        [0, 42] [("start_value", 0)] (fun _ _ => 7) =
      .error .assertionError := by
  constructor
  · exact CTB.rangetest_omitted_param_unchecked.1 true _ _ _ _ _
      (by intro p hp; simp at hp; subst hp; exact ⟨rfl, by decide⟩)
  · exact CTB.rangetest_omitted_param_unchecked.2 true "start_value" 0 1000000
      [] _ _ _ _ 0 rfl (by decide)

/-- Claim C4 counterexample: at the UTC instant 2021-01-31 23:00:00 the
offset 2 lies inside [-11, 12], yet `get_current_datetime(2)` raises
`ValueError` instead of returning a timestamp — `replace` is handed
`day = 32` because the hour-overflow arithmetic only bumps the day number
and January has 31 days.  This refutes the claim's universal statement
over every current UTC instant. -/
theorem CTB.get_current_datetime_month_end_fails :
    CTB.get_current_datetime ⟨2021, 1, 31, 23, 0, 0, none⟩ 2 =
      .error .valueError := by decide

/-- Claim C4 (amended): for every offset in [-11, 12] and every current
UTC instant at which the day-bump arithmetic stays inside the current
month (`1 <= day + (hour+offset)//24 <= daysInMonth`),
`get_current_datetime(offset)` returns a timestamp whose wall-clock hour
is `(utcNowHour + offset) mod 24` and which is tagged with exactly that
fixed offset; at instants violating that side condition it raises
`ValueError` (the month-boundary slip the spec flags in its design notes),
and for offset 13 or -12 it fails with the invalid-argument
`AssertionError`. -/
theorem CTB.get_current_datetime_hour_offset :
    (∀ (now : CTB.PyDatetime) (off : Int),
      -11 ≤ off → off ≤ 12 →
      1 ≤ (now.day : Int) + ((now.hour : Int) + off) / 24 →
      (now.day : Int) + ((now.hour : Int) + off) / 24 ≤
        (CTB.daysInMonth now.year now.month : Int) →
      ∃ t, CTB.get_current_datetime now off = .ok t ∧
        (t.hour : Int) = ((now.hour : Int) + off) % 24 ∧
        t.tzMin = some (off * 60)) ∧
    (∀ now : CTB.PyDatetime,
      CTB.get_current_datetime now 13 = .error .assertionError ∧
      CTB.get_current_datetime now (-12) = .error .assertionError) := by
  constructor
  · intro now off h1 h2 hlo hhi
    have hm0 : (0 : Int) ≤ ((now.hour : Int) + off) % 24 :=
      Int.emod_nonneg _ (by norm_num)
    have hm23 : ((now.hour : Int) + off) % 24 ≤ 23 := by omega
    unfold CTB.get_current_datetime CTB.pyReplaceDayHour
    rw [if_pos ⟨h1, h2⟩, if_pos ⟨hlo, hhi, hm0, hm23⟩]
    refine ⟨_, rfl, ?_, rfl⟩
    simp [CTB.add_offset, Int.toNat_of_nonneg hm0]
  · intro now
    constructor
    · unfold CTB.get_current_datetime
      rw [if_neg (by norm_num)]
    · unfold CTB.get_current_datetime
      rw [if_neg (by norm_num)]

/-- Witness for the amended Claim C4: at 2021-06-15 22:00:00 UTC with
offset +5 the day stays inside June, and the returned timestamp reads
03:00 on the following day with timezone +05:00. -/
theorem CTB.get_current_datetime_hour_offset_witness :
    (∃ t, CTB.get_current_datetime ⟨2021, 6, 15, 22, 0, 0, none⟩ 5 = .ok t ∧
      ((t.hour : Int) = ((22 : Int) + 5) % 24 ∧
        t.tzMin = some (5 * 60))) ∧
    CTB.get_current_datetime ⟨2021, 6, 15, 22, 0, 0, none⟩ 13 =
      .error .assertionError := by
  constructor
  · obtain ⟨t, h1, h2, h3⟩ :=
      CTB.get_current_datetime_hour_offset.1 ⟨2021, 6, 15, 22, 0, 0, none⟩ 5
        (by decide) (by decide) (by decide) (by decide)
    exact ⟨t, h1, h2, h3⟩
  · exact (CTB.get_current_datetime_hour_offset.2 ⟨2021, 6, 15, 22, 0, 0, none⟩).1

/-- Helper: when `rateUSD` resolves `iso` to `r`, the aggregator's parser
dispatch returns a rate dict whose `'USD'` entry is `r`. -/
theorem CTB.parser_dispatch_usd (env : CTB.RateEnv) (iso : String) (r : ℚ)
    (h : CTB.rateUSD env iso = some r) :
    ∃ l, (if CTB.exchangerIsos.contains iso then
        CTB.currencyParser_get_rate env iso
      else CTB.freecurrencyrates_get_rate env iso "USD") = .ok l ∧
      l.lookup "USD" = some r := by
  unfold CTB.rateUSD at h
  by_cases hd : CTB.exchangerIsos.contains iso
  · rw [if_pos hd] at h ⊢
    have hmem : iso ∈ CTB.exchangerIsos := List.mem_of_elem_eq_true hd
    have hne : ("USD" == iso) = false := by
      fin_cases hmem <;> decide
    unfold CTB.currencyParser_get_rate
    rw [h]
    exact ⟨_, rfl, by simp [List.lookup, hne]⟩
  · rw [if_neg hd] at h ⊢
    have ht : CTB.pyUpper "USD" = "USD" := by decide
    simp only [CTB.freecurrencyrates_get_rate, ht]
    by_cases hu : CTB.pyUpper iso = "USD"
    · rw [if_pos hu] at h
      rw [if_pos hu, hu]
      injection h with h
      exact ⟨_, rfl, by simp [List.lookup, ← h]⟩
    · rw [if_neg hu] at h
      rw [if_neg hu, h]
      refine ⟨_, rfl, ?_⟩
      have hne : ("USD" == CTB.pyUpper iso) = false := by
        simp only [beq_eq_false_iff_ne]
        exact fun he => hu he.symm
      simp [List.lookup, hne]

/-- Claim C5: for every pair of isos each resolvable by a dedicated parser
or by the default fiat parser, and for which the underlying per-iso USD
fetches succeed, `CurrencyExchanger.get_rate(isoFrom, isoTo)` returns an
`isoTo` value equal to `(1 / rate(isoTo in USD)) * rate(isoFrom in USD)`
rounded by the float prettifier; and for a pair with an unresolvable iso it
fails with `CurrencyDoesNotExistError` — never with the generic
`ParsingError`. -/
theorem CTB.exchanger_get_rate_spec :
    (∀ (env : CTB.RateEnv) (f t : String) (rf rt : ℚ),
      CTB.check_rate_exists env f t = true →
      CTB.rateUSD env f = some rf →
      CTB.rateUSD env t = some rt →
      rt ≠ 0 →
      CTB.exchanger_get_rate env f t =
        .ok [(f, 1), (t, CTB.prettify_float (1 / rt * rf))]) ∧
    (∀ (env : CTB.RateEnv) (f t : String),
      CTB.check_rate_exists env f t = false →
      CTB.exchanger_get_rate env f t = .error .currencyNotFound) := by
  constructor
  · intro env f t rf rt hex hf ht hrt0
    obtain ⟨lf, hfe, hfl⟩ := CTB.parser_dispatch_usd env f rf hf
    obtain ⟨lt, hte, htl⟩ := CTB.parser_dispatch_usd env t rt ht
    simp only [CTB.exchanger_get_rate, hex, if_true, hfe, hte, hfl, htl]
    rw [if_neg hrt0]
  · intro env f t hex
    simp only [CTB.exchanger_get_rate, hex]
    rfl

/-- Witness for Claim C5: in an environment where the dedicated BTC parser
reads 20000 USD and the fiat probe accepts USD and EUR, `get_rate("BTC",
"USD")` returns the prettified 20000, and `get_rate("XXX", "USD")` (XXX
rejected by the probe) fails with `CurrencyDoesNotExistError`. -/
theorem CTB.exchanger_get_rate_spec_witness :
    CTB.exchanger_get_rate
        ⟨fun iso => if iso = "BTC" then some 20000 else none,
          fun iso => iso = "USD" || iso = "EUR",
          fun a b => if a = "EUR" && b = "USD" then some (6 / 5) else none⟩
        "BTC" "USD" =
      .ok [("BTC", 1), ("USD", CTB.prettify_float (1 / 1 * 20000))] ∧
    CTB.exchanger_get_rate
        ⟨fun iso => if iso = "BTC" then some 20000 else none,
          fun iso => iso = "USD" || iso = "EUR",
          fun a b => if a = "EUR" && b = "USD" then some (6 / 5) else none⟩
        "XXX" "USD" = .error .currencyNotFound := by
  constructor
  · exact CTB.exchanger_get_rate_spec.1 _ "BTC" "USD" 20000 1
      (by decide) (by decide) (by decide) (by norm_num)
  · exact CTB.exchanger_get_rate_spec.2 _ "XXX" "USD" (by decide)

/-- Claim C1 (code bug): `add_user(1, ...)` followed by `get_user(1)` does
not round-trip the stored profile — it raises `ValueError` for every
existing user.  `dict_factory` makes the fetched row a dict, so the
unpacking `... = list(execute('SELECT * ...')[0])` binds the column-name
strings instead of the values, and `datetime.strptime('is_pro',
'%Y-%m-%d %H:%M:%S')` then fails.  This contradicts `get_user`'s own
docstring, which promises the composed profile. -/
theorem CTB.add_user_get_user_raises :
    (CTB.add_user CTB.emptyDB 1 true (.bool false) false true 0 "en").bind
      (fun p => CTB.get_user p.1 (.int 1)) = .error .valueError := by
  decide

/-- Claim C2 (code bug): with one still-future prediction in storage (and
no reactions at all), `get_max_liked_predictions()` raises `KeyError`
instead of returning the ordered list: each SQL result row is a dict
`{'id': ..., 'likes_diff': ...}` (because of `dict_factory`), and the
comprehension indexes it with the integer `0`. -/
theorem CTB.get_max_liked_predictions_raises :
    ((CTB.add_user CTB.emptyDB 1 true (.bool false) false true 0 "en").bind
      (fun p => CTB.add_prediction p.1 0 1 "USD" "EUR" 1
        ⟨1970, 1, 2, 0, 0, 0, some 0⟩ false)).bind
      (fun p => CTB.get_max_liked_predictions p.1 0) = .error .keyError := by
  decide

/-- Claim C3 (code bug): after a user likes prediction 1 and the
prediction is deleted, the reaction row keyed by prediction 1 is still in
`predictions_reactions` (while the prediction row itself is gone):
`db.py` never enables `PRAGMA foreign_keys`, so the schema's declared
`ON DELETE CASCADE` never fires (and its FOREIGN KEY even references the
nonexistent column `currency_predictions(pred_id)`). -/
theorem CTB.delete_prediction_leaves_reactions :
    ((CTB.add_user CTB.emptyDB 1 true (.bool false) false true 0 "en").bind
      (fun p => CTB.add_prediction p.1 0 1 "USD" "EUR" 1
        ⟨1970, 1, 2, 0, 0, 0, some 0⟩ false)).map
      (fun p =>
        let db3 := (CTB.toggle_prediction_reaction p.1 1 1 (.bool true)).1
        let db4 := (CTB.delete_prediction db3 1).1
        (db4.currency_predictions.length, db4.predictions_reactions)) =
    .ok (0, [[("pred_id", .int 1), ("user_id", .int 1), ("reaction", .int 1)]]) := by
  decide

/-- Claim C6 counterexample: on a stored prediction,
`change_prediction(1, iso_from='')` supplies the immutable field
`iso_from` yet does not fail — the guard
`(kwargs.get('iso_from') or kwargs.get('iso_to')) is None` treats the
falsy empty string as `None` — and the stored row is changed (its
`iso_from` becomes `''`). -/
theorem CTB.change_prediction_accepts_empty_iso_from :
    ((CTB.add_user CTB.emptyDB 1 true (.bool false) false true 0 "en").bind
      (fun p => CTB.add_prediction p.1 0 1 "USD" "EUR" 1
        ⟨1970, 1, 2, 0, 0, 0, some 0⟩ false)).map
      (fun p =>
        let r := CTB.change_prediction p.1 0 1 [("iso_from", CTB.Py.str "")]
        (r.1, r.2.currency_predictions.map (fun row => CTB.rowVal row "iso_from"))) =
    .ok (.ok (some true), [.text ""]) := by
  decide

/-- Claim C6 (amended): for an existing prediction, `change_prediction`
fails with an invalid-argument error — leaving the stored rows unchanged —
whenever `iso_from`/`iso_to` are supplied so that
`kwargs.get('iso_from') or kwargs.get('iso_to')` is not `None` (a falsy
supplied value such as `''` escapes the guard), whenever `user_id` is
supplied at all, and whenever `up_to_date` is supplied as a timestamp that
is naive or earlier than the current time; a timestamp exactly equal to
now is accepted (the future check is inclusive) and the row is updated. -/
theorem CTB.change_prediction_guards :
    (∀ (db : CTB.DB) (nowUtc id : Int) (kwargs : List (String × CTB.Py)),
      CTB.check_prediction_exists db (.int id) = true →
      CTB.pyOr (CTB.pyGet kwargs "iso_from") (CTB.pyGet kwargs "iso_to") ≠
        CTB.Py.none →
      ∃ e, CTB.change_prediction db nowUtc id kwargs = (.error e, db)) ∧
    (∀ (db : CTB.DB) (nowUtc id : Int) (kwargs : List (String × CTB.Py)),
      CTB.check_prediction_exists db (.int id) = true →
      "user_id" ∈ kwargs.map Prod.fst →
      ∃ e, CTB.change_prediction db nowUtc id kwargs = (.error e, db)) ∧
    (∀ (db : CTB.DB) (nowUtc id : Int) (kwargs : List (String × CTB.Py))
        (t : CTB.PyDatetime),
      CTB.check_prediction_exists db (.int id) = true →
      CTB.pyGet kwargs "up_to_date" = CTB.Py.dt t →
      (t.tzMin = none ∨ ∃ z, t.tzMin = some z ∧ CTB.utcEpoch t z < nowUtc) →
      ∃ e, CTB.change_prediction db nowUtc id kwargs = (.error e, db)) ∧
    (∀ (db : CTB.DB) (nowUtc id : Int) (t : CTB.PyDatetime) (z : Int),
      CTB.check_prediction_exists db (.int id) = true →
      t.tzMin = some z → CTB.utcEpoch t z = nowUtc →
      CTB.change_prediction db nowUtc id [("up_to_date", CTB.Py.dt t)] =
        (.ok (some true),
          { db with currency_predictions := db.currency_predictions.map (fun r =>
              if CTB.sqlEq (CTB.rowVal r "id") (.int id) then
                CTB.updatePredRow r "up_to_date" (.text (CTB.pyStrDatetime t))
              else r) })) := by
  refine ⟨?_, ?_, ?_, ?_⟩
  · intro db nowUtc id kwargs hex hiso
    cases hr : CTB.rangetestValueRealValue kwargs with
    | some e => exact ⟨e, by simp [CTB.change_prediction, hr]⟩
    | none => exact ⟨.assertionError, by simp [CTB.change_prediction, hr, hex, hiso]⟩
  · intro db nowUtc id kwargs hex hmem
    have hc : (kwargs.map Prod.fst).contains "user_id" = true := by
      simpa [List.contains] using List.elem_eq_true_of_mem hmem
    cases hr : CTB.rangetestValueRealValue kwargs with
    | some e => exact ⟨e, by simp [CTB.change_prediction, hr]⟩
    | none =>
      by_cases hiso : CTB.pyOr (CTB.pyGet kwargs "iso_from")
          (CTB.pyGet kwargs "iso_to") = CTB.Py.none
      · refine ⟨.assertionError, ?_⟩
        simp [CTB.change_prediction, hr, hex, hiso, hc]
        intro hnone
        obtain ⟨⟨a, b⟩, hp, hfst⟩ := List.mem_map.mp hmem
        cases hfst
        exact absurd hp (hnone b)
      · exact ⟨.assertionError, by simp [CTB.change_prediction, hr, hex, hiso]⟩
  · intro db nowUtc id kwargs t hex hup hbad
    cases hr : CTB.rangetestValueRealValue kwargs with
    | some e => exact ⟨e, by simp [CTB.change_prediction, hr]⟩
    | none =>
      by_cases hiso : CTB.pyOr (CTB.pyGet kwargs "iso_from")
          (CTB.pyGet kwargs "iso_to") = CTB.Py.none
      · by_cases hc : (kwargs.map Prod.fst).contains "user_id" = true
        · refine ⟨.assertionError, ?_⟩
          simp [CTB.change_prediction, hr, hex, hiso, hc]
          intro hnone
          obtain ⟨⟨a, b⟩, hp, hfst⟩ :=
            List.mem_map.mp (List.mem_of_elem_eq_true hc)
          cases hfst
          exact absurd hp (hnone b)
        · rcases hbad with hnaive | ⟨z, hz, hlt⟩
          · exact ⟨.assertionError, by
              simp [CTB.change_prediction, hr, hex, hiso, hc, hup,
                CTB.check_datetime_in_future, hnaive]⟩
          · refine ⟨.assertionError, ?_⟩
            have hnle : ¬ (nowUtc ≤ CTB.utcEpoch t z) := by omega
            simp [CTB.change_prediction, hr, hex, hiso, hc, hup,
              CTB.check_datetime_in_future, hz, hnle]
      · exact ⟨.assertionError, by simp [CTB.change_prediction, hr, hex, hiso]⟩
  · intro db nowUtc id t z hex hz heq
    have hr : CTB.rangetestValueRealValue [("up_to_date", CTB.Py.dt t)] =
        none := rfl
    simp [CTB.change_prediction, hr, hex, CTB.pyGet, CTB.pyOr, CTB.Py.truthy,
      CTB.check_datetime_in_future, hz, heq, CTB.applyPredUpdates,
      CTB.predColumns, CTB.toSQL, List.lookup]

/-- Witness for the amended Claim C6, on a database holding prediction 1:
supplying a truthy `iso_from`, supplying `user_id`, or supplying a past
`up_to_date` timestamp each fails and leaves the database unchanged, while
an `up_to_date` timestamp exactly equal to now (epoch 0) is accepted and
written back. -/
theorem CTB.change_prediction_guards_witness :
    (∃ e, CTB.change_prediction
      ⟨[], [], [[("id", CTB.SQLVal.int 1), ("user_id", .int 1),
        ("iso_from", .text "USD"), ("iso_to", .text "EUR"),
        ("value", .real 1), ("up_to_date", .text "1970-01-02 00:00:00+00:00"),
        ("is_by_experts", .int 0), ("real_value", .null)]], [], 2⟩
      0 1 [("iso_from", CTB.Py.str "X")] =
      (.error e,
        ⟨[], [], [[("id", CTB.SQLVal.int 1), ("user_id", .int 1),
          ("iso_from", .text "USD"), ("iso_to", .text "EUR"),
          ("value", .real 1), ("up_to_date", .text "1970-01-02 00:00:00+00:00"),
          ("is_by_experts", .int 0), ("real_value", .null)]], [], 2⟩)) ∧
    (∃ e, CTB.change_prediction
      ⟨[], [], [[("id", CTB.SQLVal.int 1), ("user_id", .int 1),
        ("iso_from", .text "USD"), ("iso_to", .text "EUR"),
        ("value", .real 1), ("up_to_date", .text "1970-01-02 00:00:00+00:00"),
        ("is_by_experts", .int 0), ("real_value", .null)]], [], 2⟩
      0 1 [("user_id", CTB.Py.int 2)] =
      (.error e,
        ⟨[], [], [[("id", CTB.SQLVal.int 1), ("user_id", .int 1),
          ("iso_from", .text "USD"), ("iso_to", .text "EUR"),
          ("value", .real 1), ("up_to_date", .text "1970-01-02 00:00:00+00:00"),
          ("is_by_experts", .int 0), ("real_value", .null)]], [], 2⟩)) ∧
    (∃ e, CTB.change_prediction
      ⟨[], [], [[("id", CTB.SQLVal.int 1), ("user_id", .int 1),
        ("iso_from", .text "USD"), ("iso_to", .text "EUR"),
        ("value", .real 1), ("up_to_date", .text "1970-01-02 00:00:00+00:00"),
        ("is_by_experts", .int 0), ("real_value", .null)]], [], 2⟩
      0 1 [("up_to_date", CTB.Py.dt ⟨1969, 12, 31, 23, 59, 59, some 0⟩)] =
      (.error e,
        ⟨[], [], [[("id", CTB.SQLVal.int 1), ("user_id", .int 1),
          ("iso_from", .text "USD"), ("iso_to", .text "EUR"),
          ("value", .real 1), ("up_to_date", .text "1970-01-02 00:00:00+00:00"),
          ("is_by_experts", .int 0), ("real_value", .null)]], [], 2⟩)) ∧
    CTB.change_prediction
      ⟨[], [], [[("id", CTB.SQLVal.int 1), ("user_id", .int 1),
        ("iso_from", .text "USD"), ("iso_to", .text "EUR"),
        ("value", .real 1), ("up_to_date", .text "1970-01-02 00:00:00+00:00"),
        ("is_by_experts", .int 0), ("real_value", .null)]], [], 2⟩
      0 1 [("up_to_date", CTB.Py.dt ⟨1970, 1, 1, 0, 0, 0, some 0⟩)] =
      (.ok (some true),
        { (⟨[], [], [[("id", CTB.SQLVal.int 1), ("user_id", .int 1),
            ("iso_from", .text "USD"), ("iso_to", .text "EUR"),
            ("value", .real 1), ("up_to_date", .text "1970-01-02 00:00:00+00:00"),
            ("is_by_experts", .int 0), ("real_value", .null)]], [], 2⟩ : CTB.DB) with
          currency_predictions :=
            (⟨[], [], [[("id", CTB.SQLVal.int 1), ("user_id", .int 1),
              ("iso_from", .text "USD"), ("iso_to", .text "EUR"),
              ("value", .real 1), ("up_to_date", .text "1970-01-02 00:00:00+00:00"),
              ("is_by_experts", .int 0), ("real_value", .null)]], [], 2⟩ : CTB.DB).currency_predictions.map
              (fun r => if CTB.sqlEq (CTB.rowVal r "id") (.int 1) then
                CTB.updatePredRow r "up_to_date"
                  (.text (CTB.pyStrDatetime ⟨1970, 1, 1, 0, 0, 0, some 0⟩))
              else r) }) := by
  refine ⟨CTB.change_prediction_guards.1 _ 0 1 _ (by decide) (by decide),
    CTB.change_prediction_guards.2.1 _ 0 1 _ (by decide) (by decide),
    CTB.change_prediction_guards.2.2.1 _ 0 1 _ ⟨1969, 12, 31, 23, 59, 59, some 0⟩
      (by decide) (by decide) (Or.inr ⟨0, rfl, by decide⟩),
    CTB.change_prediction_guards.2.2.2 _ 0 1 ⟨1970, 1, 1, 0, 0, 0, some 0⟩ 0
      (by decide) rfl (by decide)⟩

/-- Helper: `seqIdx` grows by one element at the right end. -/
theorem CTB.seqIdx_snoc : ∀ (n s : Nat),
    CTB.seqIdx s (n + 1) = CTB.seqIdx s n ++ [s + n] := by
  intro n
  induction n with
  | zero => intro s; rfl
  | succ m ih =>
    intro s
    show s :: CTB.seqIdx (s + 1) (m + 1) = (s :: CTB.seqIdx (s + 1) m) ++ _
    rw [ih (s + 1)]
    simp [Nat.add_assoc, Nat.add_comm 1 m]

/-- Helper: one `log` call preserves the rotation invariant. -/
theorem CTB.Logger.log_inv (lg : CTB.Logger) (nowStr message kind : String)
    (lg' : CTB.Logger) (h : lg.log nowStr message kind = .ok lg')
    (hinv : CTB.LoggerInv lg) : CTB.LoggerInv lg' := by
  obtain ⟨hclosed, hcur, hidx, hseq, hcnt⟩ := hinv
  unfold CTB.Logger.log at h
  cases hLV : CTB.LOG_LEVELS (CTB.pyLower kind) with
  | none => rw [hLV] at h; cases h
  | some lvl =>
    rw [hLV] at h
    dsimp only at h
    by_cases hlev : (CTB.LOG_LEVELS lg.log_level).getD 0 ≤ lvl
    · rw [if_pos hlev] at h
      by_cases hsz : CTB.logfileSize
          ⟨lg.current.index, lg.current.content ++
            ["[" ++ nowStr ++ "] [" ++ CTB.pyUpper kind ++ "] " ++ message]⟩ <
          CTB.MAX_SIZE
      · rw [if_pos hsz] at h
        injection h with h
        subst h
        exact ⟨hclosed, hsz, hidx, hseq, hcnt⟩
      · rw [if_neg hsz] at h
        injection h with h
        subst h
        unfold CTB.LoggerInv
        dsimp only
        refine ⟨?_, ?_, rfl, ?_, by omega⟩
        · intro f hf
          rcases List.mem_append.mp hf with hf | hf
          · exact hclosed f hf
          · rcases List.mem_singleton.mp hf with rfl
            refine ⟨by omega, ?_⟩
            have hd : (lg.current.content ++
                ["[" ++ nowStr ++ "] [" ++ CTB.pyUpper kind ++ "] " ++
                  message]).dropLast = lg.current.content := by simp
            dsimp only
            rw [hd]
            exact hcur
        · simp [CTB.logfileSize, CTB.MAX_SIZE]
        · simp only [List.map_append, List.map_cons, List.map_nil, hseq]
          have hstep : CTB.seqIdx 1 ((lg.log_count + 1) - 1) =
              CTB.seqIdx 1 (lg.log_count - 1) ++ [lg.log_count] := by
            have h1 : (lg.log_count + 1) - 1 = (lg.log_count - 1) + 1 := by omega
            rw [h1, CTB.seqIdx_snoc]
            have h2 : 1 + (lg.log_count - 1) = lg.log_count := by omega
            rw [h2]
          rw [hstep, hidx]
    · rw [if_neg hlev] at h
      injection h with h
      subst h
      exact ⟨hclosed, hcur, hidx, hseq, hcnt⟩

/-- Helper: a run of `log` calls preserves the rotation invariant. -/
theorem CTB.runLog_inv : ∀ (entries : List (String × String × String))
    (lg lg' : CTB.Logger), CTB.runLog lg entries = .ok lg' →
    CTB.LoggerInv lg → CTB.LoggerInv lg' := by
  intro entries
  induction entries with
  | nil =>
    intro lg lg' h hinv
    injection h with h
    subst h
    exact hinv
  | cons e rest ih =>
    intro lg lg' h hinv
    obtain ⟨now, msg, kind⟩ := e
    unfold CTB.runLog at h
    cases hstep : CTB.Logger.log lg now msg kind with
    | error e0 => rw [hstep] at h; cases h
    | ok lg1 =>
      rw [hstep] at h
      exact ih lg1 lg' h (CTB.Logger.log_inv lg now msg kind lg1 hstep hinv)

/-- Helper: one `log` call only ever appends to the closed-file list. -/
theorem CTB.Logger.log_mono (lg : CTB.Logger) (nowStr message kind : String)
    (lg' : CTB.Logger) (h : lg.log nowStr message kind = .ok lg') :
    ∃ s, lg'.closedFiles = lg.closedFiles ++ s := by
  unfold CTB.Logger.log at h
  cases hLV : CTB.LOG_LEVELS (CTB.pyLower kind) with
  | none => rw [hLV] at h; cases h
  | some lvl =>
    rw [hLV] at h
    dsimp only at h
    by_cases hlev : (CTB.LOG_LEVELS lg.log_level).getD 0 ≤ lvl
    · rw [if_pos hlev] at h
      by_cases hsz : CTB.logfileSize
          ⟨lg.current.index,
            lg.current.content ++
              ["[" ++ nowStr ++ "] [" ++ CTB.pyUpper kind ++ "] " ++ message]⟩ <
          CTB.MAX_SIZE
      · rw [if_pos hsz] at h
        injection h with h
        subst h
        exact ⟨[], by simp⟩
      · rw [if_neg hsz] at h
        injection h with h
        subst h
        exact ⟨_, rfl⟩
    · rw [if_neg hlev] at h
      injection h with h
      subst h
      exact ⟨[], by simp⟩

/-- Helper: a run of `log` calls only ever appends to the closed-file
list — no further write touches a closed file. -/
theorem CTB.runLog_mono : ∀ (entries : List (String × String × String))
    (lg lg' : CTB.Logger), CTB.runLog lg entries = .ok lg' →
    ∃ s, lg'.closedFiles = lg.closedFiles ++ s := by
  intro entries
  induction entries with
  | nil =>
    intro lg lg' h
    injection h with h
    subst h
    exact ⟨[], by simp⟩
  | cons e rest ih =>
    intro lg lg' h
    obtain ⟨now, msg, kind⟩ := e
    unfold CTB.runLog at h
    cases hstep : CTB.Logger.log lg now msg kind with
    | error e0 => rw [hstep] at h; cases h
    | ok lg1 =>
      rw [hstep] at h
      obtain ⟨s1, hs1⟩ := CTB.Logger.log_mono lg now msg kind lg1 hstep
      obtain ⟨s2, hs2⟩ := ih lg1 lg' h
      exact ⟨s1 ++ s2, by rw [hs2, hs1, List.append_assoc]⟩

/-- Helper: an accepted `log` call on a fresh logger whose single entry
already reaches the cap closes `log1.log` (holding that entry) and opens
`log2.log`. -/
theorem CTB.mkLogger_log_crossing (nowStr message kind : String) (lvl : Nat)
    (h1 : CTB.LOG_LEVELS (CTB.pyLower kind) = some lvl)
    (h2 : 20 ≤ lvl)
    (h3 : CTB.MAX_SIZE ≤
      ("[" ++ nowStr ++ "] [" ++ CTB.pyUpper kind ++ "] " ++ message).length + 1) :
    (CTB.Logger.log CTB.mkLogger nowStr message kind).map
      (fun lg => (lg.closedFiles.map CTB.logfileSize, lg.current.index)) =
    .ok ([("[" ++ nowStr ++ "] [" ++ CTB.pyUpper kind ++ "] " ++ message).length + 1],
      2) := by
  unfold CTB.Logger.log
  rw [h1]
  dsimp only [CTB.mkLogger]
  rw [if_pos (show (CTB.LOG_LEVELS "info").getD 0 ≤ lvl from h2)]
  rw [if_neg (by
    simp only [CTB.logfileSize, List.nil_append, List.map_cons, List.map_nil,
      List.sum_cons, List.sum_nil]
    omega)]
  simp [Except.map, CTB.logfileSize]

/-- Claim C8 counterexample: a single accepted `info` message of 102400
characters lands in `log1.log`, making that file 102430 bytes — over the
100 KiB cap — before rotation opens `log2.log`.  So "every log file is
capped at 100 KiB" is false: rotation happens only after the write that
crosses the threshold. -/
theorem CTB.logger_file_exceeds_cap :
    ((CTB.Logger.log CTB.mkLogger "2021-01-01 00:00:00"
        (String.mk (List.replicate 102400 'a')) "info").map
      (fun lg => (lg.closedFiles.map CTB.logfileSize, lg.current.index)) =
      .ok ([102430], 2)) ∧ CTB.MAX_SIZE < 102430 := by
  have hbig : (String.mk (List.replicate 102400 'a')).length = 102400 := by
    show (List.replicate 102400 'a').length = 102400
    rw [List.length_replicate]
  have e1 : ("[" : String).length = 1 := rfl
  have e2 : ("2021-01-01 00:00:00" : String).length = 19 := rfl
  have e3 : ("] [" : String).length = 3 := rfl
  have e4 : (CTB.pyUpper "info").length = 4 := rfl
  have e5 : ("] " : String).length = 2 := rfl
  have hlen : ("[" ++ "2021-01-01 00:00:00" ++ "] [" ++ CTB.pyUpper "info" ++
      "] " ++ String.mk (List.replicate 102400 'a')).length = 102429 := by
    simp only [String.length_append]
    rw [e1, e2, e3, e4, e5, hbig]
  constructor
  · rw [CTB.mkLogger_log_crossing "2021-01-01 00:00:00"
      (String.mk (List.replicate 102400 'a')) "info" 20 rfl (Nat.le_refl 20)
      (by rw [hlen]; decide)]
    rw [hlen]
  · decide

/-- Claim C8 (amended): the logger writes each accepted message to the
current numbered log file and rotates only after the write that reaches
the 100 KiB threshold: starting from a fresh logger, every closed file's
size is at least `MAX_SIZE` but was below `MAX_SIZE` before its final
line (so a file can exceed the cap by at most one log entry), the open
file is always below the cap and carries the next sequential number
(closed files are numbered 1, 2, ...), and closed files only ever gain a
successor — no later write lands in a previously closed file. -/
theorem CTB.logger_rotation_spec :
    (∀ (entries : List (String × String × String)) (lg' : CTB.Logger),
      CTB.runLog CTB.mkLogger entries = .ok lg' → CTB.LoggerInv lg') ∧
    (∀ (lg : CTB.Logger) (entries : List (String × String × String))
        (lg' : CTB.Logger), CTB.runLog lg entries = .ok lg' →
      ∃ s, lg'.closedFiles = lg.closedFiles ++ s) := by
  constructor
  · intro entries lg' h
    refine CTB.runLog_inv entries CTB.mkLogger lg' h ?_
    exact ⟨fun f hf => absurd hf (List.not_mem_nil f), by decide, rfl, rfl,
      by decide⟩
  · exact fun lg entries lg' h => CTB.runLog_mono entries lg lg' h

/-- Witness for the amended Claim C8: after logging one short `info`
message the invariant holds for the resulting logger (no closed file,
open file `log1.log` under the cap), and the closed-file list of the run
extends the fresh logger's (empty) one. -/
theorem CTB.logger_rotation_spec_witness :
    CTB.LoggerInv ⟨1, [], ⟨1, ["[2021-01-01 00:00:00] [INFO] hello"]⟩, "info"⟩ ∧
    (∃ s, (⟨1, [], ⟨1, ["[2021-01-01 00:00:00] [INFO] hello"]⟩,
        "info"⟩ : CTB.Logger).closedFiles =
      CTB.mkLogger.closedFiles ++ s) := by
  constructor
  · exact CTB.logger_rotation_spec.1
      [("2021-01-01 00:00:00", "hello", "info")] _ (by decide)
  · exact CTB.logger_rotation_spec.2 CTB.mkLogger
      [("2021-01-01 00:00:00", "hello", "info")] _ (by decide)

/-- Claim C9 counterexample: with task bodies that raise on every
invocation, the entry point's launch runs each of the six targets exactly
once and the thread dies — the body is not restarted — whereas the
retry-forever `infinite_loop` (defined in main.py but applied to none of
the targets) would keep re-invoking it (five invocations in five
iterations). -/
theorem CTB.main_tasks_not_restarted :
    CTB.mainLaunch (fun _ _ => true) =
      [("check_alarm_times", 1, .died), ("update_rates", 1, .died),
        ("check_premium_ended", 1, .died), ("verify_predictions", 1, .died),
        ("techsupport_main", 1, .died), ("infinity_polling", 1, .died)] ∧
    (CTB.infinite_loop (fun _ => true) 5).1 = 5 := by decide

/-- Helper: the retry loop makes at least one invocation per unit of
fuel while the body keeps raising. -/
theorem CTB.infinite_loop_go_pos (body : Nat → Bool) :
    ∀ (k f : Nat), 1 ≤ (CTB.infinite_loop_go body k (f + 1)).1 := by
  intro k f
  unfold CTB.infinite_loop_go
  split
  · dsimp only
    omega
  · dsimp only
    omega

/-- Claim C9 (amended): the entry point launches each of its six targets
directly as a daemon thread, not under the retry-forever policy: a body
that raises is invoked exactly once and its thread dies (the error is not
caught and the body is not restarted), a body that returns normally
finishes, and every target in the `targets` list is launched this way;
the `infinite_loop` helper — which does implement retry-forever and would
re-invoke a raising body — is defined but applied to none of them. -/
theorem CTB.task_launch_semantics :
    (∀ body : Nat → Bool, body 0 = true → CTB.runThread body = (1, .died)) ∧
    (∀ body : Nat → Bool, body 0 = false →
      CTB.runThread body = (1, .finished)) ∧
    (∀ (bodies : String → Nat → Bool) (n : String), n ∈ CTB.mainTargets →
      (n, CTB.runThread (bodies n)) ∈ CTB.mainLaunch bodies) ∧
    (∀ (body : Nat → Bool) (fuel : Nat), 2 ≤ fuel → body 0 = true →
      2 ≤ (CTB.infinite_loop body fuel).1) := by
  refine ⟨?_, ?_, ?_, ?_⟩
  · intro body h
    simp [CTB.runThread, h]
  · intro body h
    simp [CTB.runThread, h]
  · intro bodies n hn
    exact List.mem_map_of_mem (fun m => (m, CTB.runThread (bodies m))) hn
  · intro body fuel hfuel h0
    obtain ⟨f, rfl⟩ : ∃ f, fuel = f + 2 := ⟨fuel - 2, by omega⟩
    have hpos := CTB.infinite_loop_go_pos body 1 f
    unfold CTB.infinite_loop CTB.infinite_loop_go
    rw [if_pos h0]
    dsimp only
    simp only [Nat.zero_add]
    omega

/-- Witness for the amended Claim C9: an always-raising body launched as
the entry point launches `update_rates` is invoked once and its thread
dies; a body that returns at once finishes; `update_rates` is among the
launched tasks; and `infinite_loop` with fuel 5 re-invokes the raising
body at least twice. -/
theorem CTB.task_launch_semantics_witness :
    CTB.runThread (fun _ => true) = (1, .died) ∧
    CTB.runThread (fun _ => false) = (1, .finished) ∧
    ("update_rates", CTB.runThread ((fun _ _ => true) "update_rates")) ∈
      CTB.mainLaunch (fun _ _ => true) ∧
    2 ≤ (CTB.infinite_loop (fun _ => true) 5).1 := by
  refine ⟨CTB.task_launch_semantics.1 (fun _ => true) rfl,
    CTB.task_launch_semantics.2.1 (fun _ => false) rfl,
    CTB.task_launch_semantics.2.2.1 (fun _ _ => true) "update_rates" (by decide),
    CTB.task_launch_semantics.2.2.2 (fun _ => true) 5 (by decide) rfl⟩
